import Mathlib

/-!
Shallow embedding of the DQS (Digitization Quality Score) calculator from
`src/src/validators/dqs_calculator.py` (class `DQSCalculator`), together with
theorems checking the specification's claims about it.

Modelling conventions:
* Python values that can appear in a scored cell are modelled by `PyVal`
  (None/NaN, bool, int, float, str).  Python floats are modelled as exact
  rationals `ℚ`; the scores themselves are `ℚ` (the spec treats scores as
  real numbers in [0,1]).  Float NaN is conflated with None under `.vnone`
  (pandas `pd.isna` is true for both).
* A pandas DataFrame is modelled by `DF`: a list of column names plus a list
  of rows, each row an association list from column name to value.  A row of
  a DataFrame always yields a value for each of the frame's columns, missing
  entries being NaN; `getCell` returns `.vnone` for an absent key.
* `dict`s keyed by strings (field-type maps, per-table results, the predicted
  and ground-truth table maps) are modelled as association lists
  `List (String × α)`, preserving the source's insertion/iteration order.
-/

/-- A Python value as it can appear in a scored table cell. -/
inductive PyVal where
  | vnone
  | vbool (b : Bool)
  | vint (n : Int)
  | vfloat (q : ℚ)
  | vstr (s : String)
deriving DecidableEq, Repr

/-- `pd.isna`: true exactly for missing values (None / float NaN). -/
def pyIsNA : PyVal → Bool
  | .vnone => true
  | _ => false

/-- Python `str.strip()` on the character list: drop surrounding whitespace.
(Defined over `List Char` by structural recursion; the ASCII whitespace set
of `Char.isWhitespace` is used.) -/
def trimChars (cs : List Char) : List Char :=
  ((cs.dropWhile Char.isWhitespace).reverse.dropWhile Char.isWhitespace).reverse

/-- Python `str.strip()`. -/
def pyStrip (s : String) : String := String.mk (trimChars s.data)

/-- Python `str.upper()` (ASCII case mapping). -/
def pyUpper (s : String) : String := String.mk (s.data.map Char.toUpper)

/-- Python `str.lower()` (ASCII case mapping). -/
def pyLower (s : String) : String := String.mk (s.data.map Char.toLower)

/-- Python emptiness test (`not s`) for a string. -/
def pyStrEmpty (s : String) : Bool := s.data.isEmpty

/-- Decimal rendering of a Python float.  The shortest-round-trip decimal
representation used by Python's `str(float)` is not modelled exactly
(integral floats are rendered as `n.0`, others as a fraction); no claim
depends on this rendering. -/
def ratStr (q : ℚ) : String :=
  if q.den = 1 then toString q.num ++ ".0"
  else toString q.num ++ "/" ++ toString q.den

/-- Python `str()` on a cell value. -/
def pyStr : PyVal → String
  | .vnone => "None"
  | .vbool true => "True"
  | .vbool false => "False"
  | .vint n => toString n
  | .vfloat q => ratStr q
  | .vstr s => s

/-- Python truthiness of a cell value (`if pred_year ...`). -/
def pyTruthy : PyVal → Bool
  | .vnone => false
  | .vbool b => b
  | .vint n => n != 0
  | .vfloat q => q != 0
  | .vstr s => !s.data.isEmpty

/-- Value of a digit string (most significant first). -/
def digitsVal (cs : List Char) : Nat :=
  cs.foldl (fun a c => a * 10 + (c.toNat - 48)) 0

/-- Nonempty and all decimal digits. -/
def allDigits (cs : List Char) : Bool :=
  !cs.isEmpty && cs.all Char.isDigit

/-- Python `int(str)`: optional surrounding whitespace, optional sign, then
decimal digits.  (Underscore digit grouping accepted by Python is not
modelled; no claim depends on it.)  `none` models a raised `ValueError`. -/
def parsePyInt (s : String) : Option Int :=
  match trimChars s.data with
  | '-' :: ds => if allDigits ds then some (-(digitsVal ds : Int)) else none
  | '+' :: ds => if allDigits ds then some (digitsVal ds : Int) else none
  | ds => if allDigits ds then some (digitsVal ds : Int) else none

/-- Digits with an optional decimal point, e.g. `5`, `5.`, `.5`, `5.25`. -/
def parseFloatCore (ds : List Char) : Option ℚ :=
  match ds.splitOn '.' with
  | [ip] => if allDigits ip then some (digitsVal ip : ℚ) else none
  | [ip, fp] =>
      if ip.isEmpty && fp.isEmpty then none
      else if ip.all Char.isDigit && fp.all Char.isDigit then
        some ((digitsVal ip : ℚ) + (digitsVal fp : ℚ) / (10 : ℚ) ^ fp.length)
      else none
  | _ => none

/-- Python `float(str)`: optional whitespace, optional sign, digits with an
optional decimal point.  (Exponents, `inf`, `nan` and underscore grouping
are not modelled; no claim depends on them.)  `none` models `ValueError`. -/
def parsePyFloat (s : String) : Option ℚ :=
  match trimChars s.data with
  | '-' :: ds => (parseFloatCore ds).map (fun q => -q)
  | '+' :: ds => parseFloatCore ds
  | ds => parseFloatCore ds

/-- Python `int(x)` on a cell value; `none` models a raised error. -/
def pyIntOf : PyVal → Option Int
  | .vnone => none
  | .vbool b => some (if b then 1 else 0)
  | .vint n => some n
  | .vfloat q => some (Int.tdiv q.num (q.den : Int))
  | .vstr s => parsePyInt s

/-- Python `float(x)` on a cell value; `none` models a raised error. -/
def pyFloatOf : PyVal → Option ℚ
  | .vnone => none
  | .vbool b => some (if b then 1 else 0)
  | .vint n => some (n : ℚ)
  | .vfloat q => some q
  | .vstr s => parsePyFloat s

/-- Levenshtein edit distance (unit-cost insert/delete/substitute), as
computed by `Levenshtein.distance`; the source's `HAS_LEVENSHTEIN` flag is
taken to be true (the library is a declared dependency). -/
def lev : List Char → List Char → Nat
  | [], bs => bs.length
  | a :: as, [] => (a :: as).length
  | a :: as, b :: bs =>
      if a = b then lev as bs
      else 1 + min (lev as bs) (min (lev (a :: as) bs) (lev as (b :: bs)))
termination_by as bs => as.length + bs.length

/-- The "NONE" normalization of `calculate_text_score` (lines 60-64): the
case-insensitive sentinel string is replaced by the empty string. -/
def noneToEmpty (s : String) : String :=
  if pyUpper s = "NONE" then "" else s

/-- `DQSCalculator.calculate_text_score` (dqs_calculator.py lines 47-79). -/
def calculate_text_score (predicted ground_truth : PyVal) : ℚ :=
  if pyIsNA predicted && pyIsNA ground_truth then 1
  else if pyIsNA predicted || pyIsNA ground_truth then 0
  else
    let pred_str := noneToEmpty (pyStrip (pyStr predicted))
    let truth_str := noneToEmpty (pyStrip (pyStr ground_truth))
    if pyStrEmpty truth_str && pyStrEmpty pred_str then 1
    else if pyStrEmpty truth_str then (if !pyStrEmpty pred_str then 0 else 1)
    else
      let distance := lev pred_str.data truth_str.data
      let cer : ℚ := (distance : ℚ) / ((max truth_str.data.length 1 : ℕ) : ℚ)
      max 0 (1 - cer)

/-- `DQSCalculator.calculate_numeric_score` (lines 81-99).  The `try` block
converts both values; if either conversion raises, the score is 0. -/
def calculate_numeric_score (predicted ground_truth : PyVal) : ℚ :=
  if pyIsNA predicted && pyIsNA ground_truth then 1
  else if pyIsNA predicted || pyIsNA ground_truth then 0
  else
    match pyFloatOf predicted, pyFloatOf ground_truth with
    | some pred_val, some truth_val =>
        if truth_val = 0 then (if pred_val = 0 then 1 else 0)
        else max 0 (1 - |pred_val - truth_val| / |truth_val|)
    | _, _ => 0

/-- One date component is "null": `pd.isna(x) or str(x).upper() == "NONE"`
(lines 119-120). -/
def dateCompNull (x : PyVal) : Bool :=
  pyIsNA x || pyUpper (pyStr x) = "NONE"

/-- Coercion of one date component inside the `try` blocks of lines 128-152:
`int(x) if x and str(x).upper() != "NONE" else None`.  `.error ()` models a
raised `ValueError`/`TypeError`. -/
def dateCompInt (x : PyVal) : Except Unit (Option Int) :=
  if pyTruthy x && pyUpper (pyStr x) ≠ "NONE" then
    match pyIntOf x with
    | some n => .ok (some n)
    | none => .error ()
  else .ok none

/-- Paired coercion of a predicted/truth date component under one shared
`try/except`: if coercing either side raises, BOTH sides become `None`
(the `except` clause runs `p = t = None`). -/
def datePair (a b : PyVal) : Option Int × Option Int :=
  match dateCompInt a with
  | .error _ => (none, none)
  | .ok pa =>
      match dateCompInt b with
      | .error _ => (none, none)
      | .ok pb => (pa, pb)

/-- `DQSCalculator.calculate_date_score` (lines 101-163). -/
def calculate_date_score
    (pred_date pred_month pred_year truth_date truth_month truth_year : PyVal) : ℚ :=
  let all_pred_null := [pred_date, pred_month, pred_year].all dateCompNull
  let all_truth_null := [truth_date, truth_month, truth_year].all dateCompNull
  if all_pred_null && all_truth_null then 1
  else if all_pred_null || all_truth_null then 0
  else
    if (datePair pred_year truth_year).1 ≠ (datePair pred_year truth_year).2 then 0
    else
      if (datePair pred_month truth_month).1 ≠ (datePair pred_month truth_month).2 then 3/10
      else
        let pt := datePair pred_date truth_date
        if pt.1 = pt.2 then 1
        else
          match pt.1, pt.2 with
          | some p_date, some t_date =>
              if (p_date - t_date).natAbs ≤ 3 then 8/10 else 5/10
          | _, _ => 5/10

/-- `DQSCalculator.calculate_enum_score` (lines 165-179). -/
def calculate_enum_score (predicted ground_truth : PyVal) : ℚ :=
  if pyIsNA predicted && pyIsNA ground_truth then 1
  else if pyIsNA predicted || pyIsNA ground_truth then 0
  else
    let pred_str := pyLower (pyStrip (pyStr predicted))
    let truth_str := pyLower (pyStrip (pyStr ground_truth))
    if pred_str = "none" && truth_str = "none" then 1
    else if pred_str = truth_str then 1 else 0

/-- The inner `to_bool` of `calculate_boolean_score` (lines 183-193). -/
def to_bool (val : PyVal) : Option Bool :=
  if pyIsNA val then none
  else
    match val with
    | .vbool b => some b
    | _ =>
        let val_str := pyLower (pyStrip (pyStr val))
        if val_str = "true" || val_str = "1" || val_str = "yes" then some true
        else if val_str = "false" || val_str = "0" || val_str = "no" then some false
        else none

/-- `DQSCalculator.calculate_boolean_score` (lines 181-202). -/
def calculate_boolean_score (predicted ground_truth : PyVal) : ℚ :=
  match to_bool predicted, to_bool ground_truth with
  | none, none => 1
  | none, some _ => 1/2
  | some _, none => 1/2
  | some p, some t => if p = t then 1 else 0

/-- Element equality as used by pandas `==` / `isin` when matching key
values: numeric kinds (bool/int/float) compare by numeric value (Python
`1 == 1.0 == True`), strings compare by string equality, and missing values
(NaN) never compare equal to anything, themselves included. -/
def pyNum : PyVal → Option ℚ
  | .vbool b => some (if b then 1 else 0)
  | .vint n => some (n : ℚ)
  | .vfloat q => some q
  | _ => none

/-- See `pyNum`. -/
def pyEq (a b : PyVal) : Bool :=
  match pyNum a, pyNum b with
  | some x, some y => x = y
  | _, _ =>
      match a, b with
      | .vstr s, .vstr t => s = t
      | _, _ => false

/-- A pandas DataFrame: a list of column names and a list of rows, each row
an association list from column name to cell value. -/
structure DF where
  cols : List String
  rows : List (List (String × PyVal))
deriving DecidableEq, Repr

/-- The empty DataFrame `pd.DataFrame()`. -/
def emptyDF : DF := ⟨[], []⟩

/-- Reading a cell of a row: a row of a DataFrame yields a value for every
column of the frame, missing entries being NaN. -/
def getCell (row : List (String × PyVal)) (c : String) : PyVal :=
  (row.lookup c).getD .vnone

/-- The membership test of one predicted row in the key mask of lines
278-281: for every key column present both in the predicted frame's columns
and in the truth row's index, the cell values must be pandas-equal. -/
def rowMatches (pcols tcols : List String) (key_columns : List String)
    (truth_row pred_row : List (String × PyVal)) : Bool :=
  key_columns.all (fun k =>
    if pcols.contains k && tcols.contains k then
      pyEq (getCell pred_row k) (getCell truth_row k)
    else true)

/-- The matching loop of lines 276-287, viewed per truth row: each ground
truth row is paired with the FIRST predicted row satisfying the key mask
(`matched_rows.iloc[0]`); unmatched truth rows are dropped.  The length of
the result is `matched_count`. -/
def matchedPairs (predicted_df : DF) (tcols : List String)
    (key_columns : List String) (truth_rows : List (List (String × PyVal))) :
    List ((List (String × PyVal)) × (List (String × PyVal))) :=
  truth_rows.filterMap (fun tr =>
    match predicted_df.rows.find? (rowMatches predicted_df.cols tcols key_columns tr) with
    | some pr => some (pr, tr)
    | none => none)

/-- Dispatch on the declared field type (lines 289-300; unknown types fall
back to text comparison). -/
def scoreField (field_type : String) (p t : PyVal) : ℚ :=
  if field_type = "text" then calculate_text_score p t
  else if field_type = "numeric" then calculate_numeric_score p t
  else if field_type = "enum" then calculate_enum_score p t
  else if field_type = "boolean" then calculate_boolean_score p t
  else calculate_text_score p t

/-- `np.mean` of a list of rationals (only ever applied to nonempty lists by
the source; on `[]` Lean's division by zero makes it 0). -/
def meanQ (l : List ℚ) : ℚ := l.sum / (l.length : ℚ)

/-- The per-field score lists `all_field_scores` of lines 272-302: for each
declared field, the scores of that field over all matched (pred row, truth
row) pairs, provided the field is a column of both frames (the
`field in pred_row.index and field in truth_row.index` guard); otherwise the
list stays empty. -/
def fieldScoreLists (predicted_df ground_truth_df : DF)
    (key_columns : List String) (field_types : List (String × String)) :
    List (String × List ℚ) :=
  let pairs := matchedPairs predicted_df ground_truth_df.cols key_columns ground_truth_df.rows
  field_types.map (fun ft =>
    (ft.1,
      if predicted_df.cols.contains ft.1 && ground_truth_df.cols.contains ft.1 then
        pairs.map (fun pr => scoreField ft.2 (getCell pr.1 ft.1) (getCell pr.2 ft.1))
      else []))

/-- `final_field_scores` of lines 304-308: the mean for every field that
accumulated at least one score. -/
def finalFieldScores (predicted_df ground_truth_df : DF)
    (key_columns : List String) (field_types : List (String × String)) :
    List (String × ℚ) :=
  ((fieldScoreLists predicted_df ground_truth_df key_columns field_types).filter
      (fun p => !p.2.isEmpty)).map (fun p => (p.1, meanQ p.2))

/-- The result pair of `calculate_table_dqs`. -/
structure TableResult where
  overall : ℚ
  field_scores : List (String × ℚ)
deriving DecidableEq, Repr

/-- `DQSCalculator.calculate_table_dqs` (lines 246-314). -/
def calculate_table_dqs (predicted_df ground_truth_df : DF)
    (key_columns : List String) (field_types : List (String × String)) :
    TableResult :=
  if predicted_df.rows.isEmpty && ground_truth_df.rows.isEmpty then ⟨1, []⟩
  else if predicted_df.rows.isEmpty then ⟨0, []⟩
  else if ground_truth_df.rows.isEmpty then ⟨1, []⟩
  else
    let matched_count :=
      (matchedPairs predicted_df ground_truth_df.cols key_columns ground_truth_df.rows).length
    let ffs := finalFieldScores predicted_df ground_truth_df key_columns field_types
    let coverage : ℚ :=
      if 0 < ground_truth_df.rows.length then
        (matched_count : ℚ) / (ground_truth_df.rows.length : ℚ)
      else 0
    ⟨if ffs.isEmpty then 0 else meanQ (ffs.map (·.2)) * coverage, ffs⟩

/-- `DQSCalculator.SECTION_WEIGHTS` (lines 19-24). -/
def SECTION_WEIGHTS : List (String × ℚ) :=
  [("submitter_spouse", 1/4), ("statement_details", 3/10),
   ("assets", 3/10), ("relatives", 3/20)]

/-- `DQSCalculator.TABLE_TO_SECTION` (lines 27-42). -/
def TABLE_TO_SECTION : List (String × String) :=
  [("submitter_info", "submitter_spouse"),
   ("submitter_old_name", "submitter_spouse"),
   ("submitter_position", "submitter_spouse"),
   ("spouse_info", "submitter_spouse"),
   ("spouse_old_name", "submitter_spouse"),
   ("spouse_position", "submitter_spouse"),
   ("statement", "statement_details"),
   ("statement_detail", "statement_details"),
   ("asset", "assets"),
   ("asset_land_info", "assets"),
   ("asset_building_info", "assets"),
   ("asset_vehicle_info", "assets"),
   ("asset_other_asset_info", "assets"),
   ("relative_info", "relatives")]

/-- `field_type_definitions` (lines 357-395). -/
def field_type_definitions : List (String × List (String × String)) :=
  [("submitter_info",
    [("title", "text"), ("first_name", "text"), ("last_name", "text"),
     ("age", "numeric"), ("status", "text"), ("sub_district", "text"),
     ("district", "text"), ("province", "text")]),
   ("spouse_info",
    [("title", "text"), ("first_name", "text"), ("last_name", "text"),
     ("age", "numeric"), ("status", "text")]),
   ("asset",
    [("asset_type_id", "enum"), ("asset_name", "text"),
     ("valuation", "numeric"), ("owner_by_submitter", "boolean"),
     ("owner_by_spouse", "boolean"), ("owner_by_child", "boolean")]),
   ("relative_info",
    [("relationship_id", "enum"), ("title", "text"), ("first_name", "text"),
     ("last_name", "text")]),
   ("statement",
    [("statement_type_id", "enum"), ("valuation_submitter", "numeric"),
     ("valuation_spouse", "numeric"), ("valuation_child", "numeric")])]

/-- `key_columns_map` (lines 398-413). -/
def key_columns_map : List (String × List String) :=
  [("submitter_info", ["submitter_id"]),
   ("submitter_old_name", ["submitter_id", "nacc_id"]),
   ("submitter_position", ["submitter_id", "nacc_id", "index", "position_period_type_id"]),
   ("spouse_info", ["submitter_id", "nacc_id"]),
   ("spouse_old_name", ["submitter_id", "nacc_id"]),
   ("spouse_position", ["submitter_id", "nacc_id", "position"]),
   ("asset", ["submitter_id", "nacc_id", "index"]),
   ("asset_land_info", ["submitter_id", "nacc_id", "asset_index"]),
   ("asset_building_info", ["submitter_id", "nacc_id", "asset_index"]),
   ("asset_vehicle_info", ["submitter_id", "nacc_id", "asset_index"]),
   ("asset_other_asset_info", ["submitter_id", "nacc_id", "asset_index"]),
   ("relative_info", ["submitter_id", "nacc_id", "relationship_id", "first_name"]),
   ("statement", ["submitter_id", "nacc_id", "statement_type_id"]),
   ("statement_detail", ["submitter_id", "nacc_id", "statement_type_id", "statement_detail_type_id"])]

/-- `dict.get(name, default)` on a table map. -/
def lookupDF (d : List (String × DF)) (name : String) : DF :=
  (d.lookup name).getD emptyDF

/-- The identifier collection of lines 328-334: the non-null values of the
named column over all predicted tables having that column (`unique()` only
deduplicates, which is irrelevant to the membership tests it feeds). -/
def collectIds (predicted : List (String × DF)) (col : String) : List PyVal :=
  (predicted.map (fun p =>
    if p.2.cols.contains col then
      (p.2.rows.map (fun r => getCell r col)).filter (fun v => !pyIsNA v)
    else [])).flatten

/-- The ground-truth filtering of lines 336-351: each non-empty truth table
is restricted, by `submitter_id` (preferred) or `nacc_id`, to the identifier
set actually present in the predicted output. -/
def filterGT (predicted ground_truth : List (String × DF)) : List (String × DF) :=
  let sids := collectIds predicted "submitter_id"
  let nids := collectIds predicted "nacc_id"
  ground_truth.map (fun p =>
    (p.1,
      if p.2.rows.isEmpty then p.2
      else if p.2.cols.contains "submitter_id" && !sids.isEmpty then
        ⟨p.2.cols, p.2.rows.filter (fun r => sids.any (pyEq (getCell r "submitter_id")))⟩
      else if p.2.cols.contains "nacc_id" && !nids.isEmpty then
        ⟨p.2.cols, p.2.rows.filter (fun r => nids.any (pyEq (getCell r "nacc_id")))⟩
      else p.2))

/-- The per-table field types with the default of lines 432-439: declared
types if the table has an entry, otherwise text comparison on every truth
column except `latest_submitted_date` (only relevant when the truth table is
non-empty). -/
def tableFieldTypes (table_name : String) (truth_df : DF) : List (String × String) :=
  match field_type_definitions.lookup table_name with
  | some fts => fts
  | none =>
      if !truth_df.rows.isEmpty then
        (truth_df.cols.filter (fun c => c ≠ "latest_submitted_date")).map (fun c => (c, "text"))
      else []

/-- `key_columns_map.get(table_name, ['submitter_id', 'nacc_id'])` (line 433). -/
def keyColsOf (table_name : String) : List String :=
  (key_columns_map.lookup table_name).getD ["submitter_id", "nacc_id"]

/-- One iteration of the per-table loop of lines 416-447.  Returns the score
recorded in `table_scores` and the optional contribution appended to the
table's section list: a missing predicted table with non-empty (filtered)
truth records 0.0 AND appends 0.0; a table empty on both sides records 1.0
and appends nothing; otherwise the `calculate_table_dqs` overall score is
recorded and appended. -/
def tableEntry (predicted filtered : List (String × DF)) (table_name : String) :
    ℚ × Option ℚ :=
  let pred_df := lookupDF predicted table_name
  let truth_df := lookupDF filtered table_name
  if pred_df.rows.isEmpty then
    if truth_df.rows.isEmpty then (1, none) else (0, some 0)
  else
    let score :=
      (calculate_table_dqs pred_df truth_df (keyColsOf table_name)
        (tableFieldTypes table_name truth_df)).overall
    (score, some score)

/-- The member tables of a section, in `TABLE_TO_SECTION` order. -/
def sectionTables (sec : String) : List String :=
  (TABLE_TO_SECTION.filter (fun p => p.2 = sec)).map (·.1)

/-- The per-section score list built by the loop of lines 416-447 (the
single pass appending into `section_scores[section]` is viewed per section:
appends to distinct sections are independent, and within one section they
happen in `TABLE_TO_SECTION` order). -/
def sectionScoreList (predicted filtered : List (String × DF)) (sec : String) :
    List ℚ :=
  (sectionTables sec).filterMap (fun t => (tableEntry predicted filtered t).2)

/-- `table_scores` as recorded by the same loop. -/
def tableScores (predicted filtered : List (String × DF)) : List (String × ℚ) :=
  TABLE_TO_SECTION.map (fun p => (p.1, (tableEntry predicted filtered p.1).1))

/-- The section averages of lines 449-452: mean of the section's score list,
or 0.0 when the list is empty. -/
def final_section_scores (predicted filtered : List (String × DF)) :
    List (String × ℚ) :=
  SECTION_WEIGHTS.map (fun p =>
    (p.1,
      if (sectionScoreList predicted filtered p.1).isEmpty then 0
      else meanQ (sectionScoreList predicted filtered p.1)))

/-- The weighted overall DQS of lines 454-458:
`sum(final_section_scores.get(section, 0) * weight ...)`. -/
def weightedRollup (fss : List (String × ℚ)) : ℚ :=
  (SECTION_WEIGHTS.map (fun p => ((fss.lookup p.1).getD 0) * p.2)).sum

/-- The result dictionary of `calculate_overall_dqs` (lines 460-465). -/
structure DQSReport where
  overall_dqs : ℚ
  passes_threshold : Bool
  section_scores : List (String × ℚ)
  table_scores : List (String × ℚ)
deriving DecidableEq, Repr

/-- `DQSCalculator.calculate_overall_dqs` (lines 316-465). -/
def calculate_overall_dqs (predicted ground_truth : List (String × DF)) :
    DQSReport :=
  let filtered_gt := filterGT predicted ground_truth
  let fss := final_section_scores predicted filtered_gt
  let overall_dqs := weightedRollup fss
  ⟨overall_dqs, decide ((7:ℚ)/10 ≤ overall_dqs), fss,
    tableScores predicted filtered_gt⟩

/-- Concrete predicted table for the coverage example: one row with key 1. -/
def pred_c5 : DF := ⟨["k", "f"], [[("k", PyVal.vint 1), ("f", PyVal.vstr "x")]]⟩

/-- Concrete ground-truth table for the coverage example: two rows, of which
only the first has a matching predicted row. -/
def truth_c5 : DF :=
  ⟨["k", "f"],
   [[("k", PyVal.vint 1), ("f", PyVal.vstr "x")],
    [("k", PyVal.vint 2), ("f", PyVal.vstr "y")]]⟩

/-- Concrete predicted table whose single row matches the truth row by key
but disagrees on every scored field. -/
def pred_c3 : DF := ⟨["k", "f"], [[("k", PyVal.vint 1), ("f", PyVal.vstr "a")]]⟩

/-- Concrete ground-truth table for `pred_c3`. -/
def truth_c3 : DF := ⟨["k", "f"], [[("k", PyVal.vint 1), ("f", PyVal.vstr "b")]]⟩

/-- Claim C1, counterexample: with predicted triple (day "5", month "6",
year "abc") and truth triple ("5", "6", "2020"), neither side is fully null
and the predicted year is unparseable with a parseable truth year, so the
claim demands a score of 0.0; the code returns 1.0 (the shared exception
handler nulls BOTH years, which then compare equal). -/
theorem C1_counterexample :
    calculate_date_score (PyVal.vstr "5") (PyVal.vstr "6") (PyVal.vstr "abc")
        (PyVal.vstr "5") (PyVal.vstr "6") (PyVal.vstr "2020") = 1
    ∧ ¬ (calculate_date_score (PyVal.vstr "5") (PyVal.vstr "6") (PyVal.vstr "abc")
          (PyVal.vstr "5") (PyVal.vstr "6") (PyVal.vstr "2020") = 0) := by
  constructor <;> decide

/-- Claim C1, amended: when not both date triples are fully null, a mismatch
between the two COERCED years scores 0.0 regardless of day/month agreement;
but an unparseable year on either side does not count as a mismatch:
the shared `try/except` coerces both years to null, which compare equal, and
scoring proceeds to the month/day tiers (only a null year — None, "NONE" or
empty — on exactly one side yields a coerced-year mismatch). -/
theorem C1_year_mismatch (pd pm py td tm ty : PyVal)
    (h : ¬([pd, pm, py].all dateCompNull = true ∧ [td, tm, ty].all dateCompNull = true)) :
    ((datePair py ty).1 ≠ (datePair py ty).2 →
      calculate_date_score pd pm py td tm ty = 0)
    ∧ (dateCompInt py = .error () ∨ dateCompInt ty = .error () →
        (datePair py ty).1 = (datePair py ty).2) := by
  constructor
  · intro hne
    unfold calculate_date_score
    rcases hp : [pd, pm, py].all dateCompNull with _ | _
    · rcases ht : [td, tm, ty].all dateCompNull with _ | _ <;> simp [hp, ht, hne]
    · rcases ht : [td, tm, ty].all dateCompNull with _ | _
      · simp [hp, ht, hne]
      · exact absurd ⟨hp, ht⟩ h
  · intro he
    unfold datePair
    rcases he with he | he
    · simp [he]
    · rcases hx : dateCompInt py with _ | _ <;> simp [hx, he]

/-- Claim C1, witness: a genuine year mismatch (2020 vs 2021) scores 0.0. -/
theorem C1_witness :
    calculate_date_score (PyVal.vstr "1") (PyVal.vstr "2") (PyVal.vstr "2020")
      (PyVal.vstr "1") (PyVal.vstr "2") (PyVal.vstr "2021") = 0 :=
  (C1_year_mismatch _ _ _ _ _ _ (by decide)).1 (by decide)

/-- Claim C2, counterexample: the sentinel "NONE" on both sides scores 0.0
(not 1.0) for the numeric kind, and a null paired with "NONE" scores 0.0
(not 1.0) for the text kind. -/
theorem C2_counterexample :
    calculate_numeric_score (PyVal.vstr "NONE") (PyVal.vstr "NONE") = 0
    ∧ calculate_text_score PyVal.vnone (PyVal.vstr "NONE") = 0 := by
  constructor <;> decide

/-- Claim C2, amended: both-null scores 1.0 for all four kinds, and
both-"NONE" (case-insensitive) scores 1.0 for text, enum and boolean but
0.0 for numeric ("NONE" is not parseable as a number); a mixed pair of null
and "NONE" scores 0.0 for text, enum and numeric — only boolean scores 1.0
on every combination of null and "NONE". -/
theorem C2_null_sentinel (s t : String)
    (hsu : pyUpper (pyStrip s) = "NONE") (htu : pyUpper (pyStrip t) = "NONE")
    (hsl : pyLower (pyStrip s) = "none") (htl : pyLower (pyStrip t) = "none")
    (hsf : parsePyFloat s = none) (htf : parsePyFloat t = none) :
    (calculate_text_score PyVal.vnone PyVal.vnone = 1
      ∧ calculate_numeric_score PyVal.vnone PyVal.vnone = 1
      ∧ calculate_enum_score PyVal.vnone PyVal.vnone = 1
      ∧ calculate_boolean_score PyVal.vnone PyVal.vnone = 1)
    ∧ (calculate_text_score (PyVal.vstr s) (PyVal.vstr t) = 1
      ∧ calculate_enum_score (PyVal.vstr s) (PyVal.vstr t) = 1
      ∧ calculate_boolean_score (PyVal.vstr s) (PyVal.vstr t) = 1
      ∧ calculate_numeric_score (PyVal.vstr s) (PyVal.vstr t) = 0)
    ∧ (calculate_text_score PyVal.vnone (PyVal.vstr t) = 0
      ∧ calculate_text_score (PyVal.vstr s) PyVal.vnone = 0
      ∧ calculate_enum_score PyVal.vnone (PyVal.vstr t) = 0
      ∧ calculate_enum_score (PyVal.vstr s) PyVal.vnone = 0
      ∧ calculate_numeric_score PyVal.vnone (PyVal.vstr t) = 0
      ∧ calculate_numeric_score (PyVal.vstr s) PyVal.vnone = 0
      ∧ calculate_boolean_score PyVal.vnone (PyVal.vstr t) = 1
      ∧ calculate_boolean_score (PyVal.vstr s) PyVal.vnone = 1) := by
  refine ⟨⟨by decide, by decide, by decide, by decide⟩, ⟨?_, ?_, ?_, ?_⟩,
    ?_, ?_, ?_, ?_, ?_, ?_, ?_, ?_⟩
  · simp [calculate_text_score, pyIsNA, pyStr, noneToEmpty, hsu, htu, pyStrEmpty]
  · simp [calculate_enum_score, pyIsNA, pyStr, hsl, htl]
  · simp [calculate_boolean_score, to_bool, pyIsNA, pyStr, hsl, htl]
  · simp [calculate_numeric_score, pyIsNA, pyFloatOf, hsf, htf]
  · simp [calculate_text_score, pyIsNA]
  · simp [calculate_text_score, pyIsNA]
  · simp [calculate_enum_score, pyIsNA]
  · simp [calculate_enum_score, pyIsNA]
  · simp [calculate_numeric_score, pyIsNA]
  · simp [calculate_numeric_score, pyIsNA]
  · simp [calculate_boolean_score, to_bool, pyIsNA, pyStr, htl]
  · simp [calculate_boolean_score, to_bool, pyIsNA, pyStr, hsl]

/-- Claim C2, witness: instantiating the amended claim at the case variants
"None" and "nOnE" of the sentinel. -/
theorem C2_witness :
    calculate_text_score (PyVal.vstr "None") (PyVal.vstr "nOnE") = 1
    ∧ calculate_numeric_score (PyVal.vstr "None") (PyVal.vstr "nOnE") = 0 :=
  ⟨((C2_null_sentinel "None" "nOnE" (by decide) (by decide) (by decide) (by decide)
      (by decide) (by decide)).2.1).1,
   ((C2_null_sentinel "None" "nOnE" (by decide) (by decide) (by decide) (by decide)
      (by decide) (by decide)).2.1).2.2.2⟩

/-- Claim C3, counterexample: both tables non-empty, the single truth row
DOES match a predicted row (matched count 1), yet the overall table score is
0 — because the matched row's only field score is 0.  The claimed "0 only if
nothing matched or predicted empty" is therefore false. -/
theorem C3_counterexample :
    (calculate_table_dqs pred_c3 truth_c3 ["k"] [("f", "text")]).overall = 0
    ∧ (matchedPairs pred_c3 truth_c3.cols ["k"] truth_c3.rows).length = 1
    ∧ pred_c3.rows ≠ [] ∧ truth_c3.rows ≠ [] := by
  have hs1 : scoreField "text" (PyVal.vstr "a") (PyVal.vstr "b") = 0 := by
    have h4 : noneToEmpty (pyStrip (pyStr (PyVal.vstr "a"))) = "a" := by decide
    have h4b : noneToEmpty (pyStrip (pyStr (PyVal.vstr "b"))) = "b" := by decide
    have h7 : lev "a".data "b".data = 1 := by simp [lev]
    simp only [scoreField, if_pos rfl, calculate_text_score, h4, h4b, h7]
    norm_num [pyIsNA, pyStrEmpty]
  have hm : matchedPairs ⟨["k", "f"], [[("k", PyVal.vint 1), ("f", PyVal.vstr "a")]]⟩
        ["k", "f"] ["k"] [[("k", PyVal.vint 1), ("f", PyVal.vstr "b")]]
      = [([("k", PyVal.vint 1), ("f", PyVal.vstr "a")],
          [("k", PyVal.vint 1), ("f", PyVal.vstr "b")])] := by decide
  have hfl : fieldScoreLists pred_c3 truth_c3 ["k"] [("f", "text")] = [("f", [0])] := by
    simp [fieldScoreLists, pred_c3, truth_c3, hm, getCell, hs1, List.lookup]
  have hff : finalFieldScores pred_c3 truth_c3 ["k"] [("f", "text")] = [("f", 0)] := by
    simp [finalFieldScores, hfl, meanQ]
  have hm2 : matchedPairs pred_c3 truth_c3.cols ["k"] truth_c3.rows
      = [([("k", PyVal.vint 1), ("f", PyVal.vstr "a")],
          [("k", PyVal.vint 1), ("f", PyVal.vstr "b")])] := hm
  refine ⟨?_, by rw [hm2]; rfl, by decide, by decide⟩
  have hP' : pred_c3.rows.isEmpty = false := by decide
  have hT' : truth_c3.rows.isEmpty = false := by decide
  simp only [calculate_table_dqs, hP', hT', Bool.false_and, Bool.false_eq_true,
    if_false, hff]
  norm_num [meanQ]

/-- Claim C3, amended: the overall table score is 0 only if ground truth is
non-empty and either the predicted table is empty, or no per-field score was
accumulated (in particular when no truth row matched any predicted row, or
no scored field is a column of both tables), or the mean of the accumulated
per-field scores is itself 0 (every matched field score being 0). -/
theorem C3_zero_overall (P T : DF) (keys : List String) (fts : List (String × String))
    (h : (calculate_table_dqs P T keys fts).overall = 0) :
    T.rows ≠ []
    ∧ (P.rows = []
        ∨ (calculate_table_dqs P T keys fts).field_scores = []
        ∨ (matchedPairs P T.cols keys T.rows).length = 0
        ∨ meanQ (((calculate_table_dqs P T keys fts).field_scores).map (fun p => p.2)) = 0) := by
  by_cases hP : P.rows = []
  · by_cases hT : T.rows = []
    · exfalso
      have hv : calculate_table_dqs P T keys fts = ⟨1, []⟩ := by
        simp [calculate_table_dqs, hP, hT]
      rw [hv] at h
      norm_num at h
    · exact ⟨hT, Or.inl hP⟩
  · by_cases hT : T.rows = []
    · exfalso
      have hv : calculate_table_dqs P T keys fts = ⟨1, []⟩ := by
        simp [calculate_table_dqs, hP, hT]
      rw [hv] at h
      norm_num at h
    · refine ⟨hT, ?_⟩
      have hP' : P.rows.isEmpty = false := by simp [hP]
      have hT' : T.rows.isEmpty = false := by simp [hT]
      have hlen : 0 < T.rows.length := List.length_pos.mpr hT
      rcases hf : (finalFieldScores P T keys fts).isEmpty with _ | _
      · simp only [calculate_table_dqs, hP', hT', Bool.false_and, Bool.false_eq_true,
          if_false, hf, hlen, if_pos] at h ⊢
        rcases mul_eq_zero.mp h with hmean | hcov
        · exact Or.inr (Or.inr (Or.inr hmean))
        · refine Or.inr (Or.inr (Or.inl ?_))
          rcases div_eq_zero_iff.mp hcov with hm | hl
          · exact_mod_cast hm
          · exfalso
            have hne : (T.rows.length : ℚ) ≠ 0 := by positivity
            exact hne hl
      · have hfl : finalFieldScores P T keys fts = [] := List.isEmpty_iff.mp hf
        refine Or.inr (Or.inl ?_)
        simp only [calculate_table_dqs, hP', hT', Bool.false_and, Bool.false_eq_true,
          if_false, hfl]

/-- Claim C3, witness: an empty predicted table against non-empty truth has
overall score 0, and the amended disjunction holds there. -/
theorem C3_witness :
    truth_c3.rows ≠ []
    ∧ (emptyDF.rows = []
        ∨ (calculate_table_dqs emptyDF truth_c3 ["k"] [("f", "text")]).field_scores = []
        ∨ (matchedPairs emptyDF truth_c3.cols ["k"] truth_c3.rows).length = 0
        ∨ meanQ (((calculate_table_dqs emptyDF truth_c3 ["k"] [("f", "text")]).field_scores).map
            (fun p => p.2)) = 0) :=
  C3_zero_overall emptyDF truth_c3 ["k"] [("f", "text")] (by decide)

/-- Claim C4: the section weights are the four declared constants and sum to
1.0; the overall DQS is exactly the sum over sections of section score times
weight; `passes_threshold` holds iff the overall DQS is at least 0.70; and
for section scores 1.0, 0.5, 0.0, 0.5 under weights 0.25, 0.30, 0.30, 0.15
the rollup is 0.475 = 19/40, which fails the threshold. -/
theorem C4_weighted_rollup :
    (SECTION_WEIGHTS.map Prod.snd).sum = 1
    ∧ SECTION_WEIGHTS
        = [("submitter_spouse", 1/4), ("statement_details", 3/10),
           ("assets", 3/10), ("relatives", 3/20)]
    ∧ (∀ predicted ground_truth : List (String × DF),
        (calculate_overall_dqs predicted ground_truth).overall_dqs
          = (SECTION_WEIGHTS.map (fun p =>
              (((calculate_overall_dqs predicted ground_truth).section_scores.lookup p.1).getD 0)
                * p.2)).sum)
    ∧ (∀ predicted ground_truth : List (String × DF),
        (calculate_overall_dqs predicted ground_truth).passes_threshold = true
          ↔ (7:ℚ)/10 ≤ (calculate_overall_dqs predicted ground_truth).overall_dqs)
    ∧ weightedRollup
        [("submitter_spouse", 1), ("statement_details", 1/2),
         ("assets", 0), ("relatives", 1/2)] = 19/40
    ∧ ¬ ((7:ℚ)/10 ≤ (19:ℚ)/40) := by
  refine ⟨by norm_num [SECTION_WEIGHTS], rfl, fun p g => rfl, fun p g => ?_, ?_, by norm_num⟩
  · exact decide_eq_true_iff
  · simp [weightedRollup, SECTION_WEIGHTS, List.lookup]
    norm_num

/-- Claim C5: when both tables are non-empty, the overall table score equals
the arithmetic mean of the returned per-field scores (each the mean of that
field's scores over matched truth rows) multiplied by coverage
(matched truth rows / total truth rows); and matching 1 of 2 truth rows with
a perfect field score on the matched row yields exactly 0.5. -/
theorem C5_mean_times_coverage :
    (∀ (P T : DF) (keys : List String) (fts : List (String × String)),
      P.rows ≠ [] → T.rows ≠ [] →
      (calculate_table_dqs P T keys fts).overall
        = meanQ (((calculate_table_dqs P T keys fts).field_scores).map (fun p => p.2))
            * (((matchedPairs P T.cols keys T.rows).length : ℚ) / (T.rows.length : ℚ)))
    ∧ (calculate_table_dqs pred_c5 truth_c5 ["k"] [("f", "text")]).overall = 1/2 := by
  constructor
  · intro P T keys fts hP hT
    have hP' : P.rows.isEmpty = false := by simp [hP]
    have hT' : T.rows.isEmpty = false := by simp [hT]
    have hlen : 0 < T.rows.length := List.length_pos.mpr hT
    rcases hf : (finalFieldScores P T keys fts).isEmpty with _ | _
    · simp only [calculate_table_dqs, hP', hT', Bool.false_and, Bool.and_false,
        Bool.false_eq_true, if_false, hf, if_true, hlen, if_pos]
    · have hfl : finalFieldScores P T keys fts = [] := List.isEmpty_iff.mp hf
      simp only [calculate_table_dqs, hP', hT', Bool.false_and, Bool.false_eq_true,
        if_false, hf, hfl, if_true, List.map_nil]
      simp [meanQ]
  · have hs1 : scoreField "text" (PyVal.vstr "x") (PyVal.vstr "x") = 1 := by
      have h4 : noneToEmpty (pyStrip (pyStr (PyVal.vstr "x"))) = "x" := by decide
      have h7 : lev "x".data "x".data = 0 := by simp [lev]
      simp only [scoreField, if_pos rfl, calculate_text_score, h4, h7]
      norm_num [pyIsNA, pyStrEmpty]
    have hm : matchedPairs ⟨["k", "f"], [[("k", PyVal.vint 1), ("f", PyVal.vstr "x")]]⟩
          ["k", "f"] ["k"]
          [[("k", PyVal.vint 1), ("f", PyVal.vstr "x")],
           [("k", PyVal.vint 2), ("f", PyVal.vstr "y")]]
        = [([("k", PyVal.vint 1), ("f", PyVal.vstr "x")],
            [("k", PyVal.vint 1), ("f", PyVal.vstr "x")])] := by decide
    have hfl : fieldScoreLists pred_c5 truth_c5 ["k"] [("f", "text")] = [("f", [1])] := by
      simp [fieldScoreLists, pred_c5, truth_c5, hm, getCell, hs1, List.lookup]
    have hff : finalFieldScores pred_c5 truth_c5 ["k"] [("f", "text")] = [("f", 1)] := by
      simp [finalFieldScores, hfl, meanQ]
    have hP' : pred_c5.rows.isEmpty = false := by decide
    have hT' : truth_c5.rows.isEmpty = false := by decide
    have hm2 : matchedPairs pred_c5 ["k", "f"] ["k"]
          [[("k", PyVal.vint 1), ("f", PyVal.vstr "x")],
           [("k", PyVal.vint 2), ("f", PyVal.vstr "y")]]
        = [([("k", PyVal.vint 1), ("f", PyVal.vstr "x")],
            [("k", PyVal.vint 1), ("f", PyVal.vstr "x")])] := hm
    simp only [calculate_table_dqs, hP', hT', Bool.false_and, Bool.false_eq_true,
      if_false, hff, hm2]
    norm_num [meanQ, truth_c5, hm2]

/-- Claim C5, witness: the mean-times-coverage identity instantiated at the
concrete 1-of-2 tables. -/
theorem C5_witness :
    (calculate_table_dqs pred_c5 truth_c5 ["k"] [("f", "text")]).overall
      = meanQ (((calculate_table_dqs pred_c5 truth_c5 ["k"] [("f", "text")]).field_scores).map
            (fun p => p.2))
          * (((matchedPairs pred_c5 truth_c5.cols ["k"] truth_c5.rows).length : ℚ)
              / (truth_c5.rows.length : ℚ)) :=
  C5_mean_times_coverage.1 pred_c5 truth_c5 ["k"] [("f", "text")] (by decide) (by decide)

/-- Claim C6: table scoring on empty inputs: both tables empty gives
(1.0, {}), predicted empty with truth non-empty gives (0.0, {}), and truth
empty with predicted non-empty gives (1.0, {}). -/
theorem C6_empty_tables (P T : DF) (keys : List String) (fts : List (String × String)) :
    (P.rows = [] → T.rows = [] → calculate_table_dqs P T keys fts = ⟨1, []⟩)
    ∧ (P.rows = [] → T.rows ≠ [] → calculate_table_dqs P T keys fts = ⟨0, []⟩)
    ∧ (P.rows ≠ [] → T.rows = [] → calculate_table_dqs P T keys fts = ⟨1, []⟩) := by
  refine ⟨?_, ?_, ?_⟩ <;> intro h1 h2 <;>
    simp [calculate_table_dqs, h1, h2, List.isEmpty_iff]

/-- Claim C6, witness: the predicted-empty/truth-non-empty case at a
concrete one-row truth table. -/
theorem C6_witness :
    calculate_table_dqs emptyDF ⟨["k"], [[("k", PyVal.vint 1)]]⟩ [] [] = ⟨0, []⟩ :=
  (C6_empty_tables emptyDF ⟨["k"], [[("k", PyVal.vint 1)]]⟩ [] []).2.1 rfl (by simp)

/-- Helper: looking up any declared section in the final section scores
yields the mean of its score list, or 0 when the list is empty
(dqs_calculator.py lines 449-452). -/
theorem lookup_final_section_scores (predicted filtered : List (String × DF))
    (sec : String) (hs : sec ∈ SECTION_WEIGHTS.map Prod.fst) :
    (final_section_scores predicted filtered).lookup sec
      = some (if (sectionScoreList predicted filtered sec).isEmpty then 0
              else meanQ (sectionScoreList predicted filtered sec)) := by
  simp only [SECTION_WEIGHTS, List.map_cons, List.map_nil, List.mem_cons,
    List.not_mem_nil, or_false] at hs
  rcases hs with h | h | h | h <;> subst h <;>
    simp [final_section_scores, SECTION_WEIGHTS, List.lookup]

/-- Claim C7: each declared section's score is the arithmetic mean of its
score list (0.0 when empty); the score list consists exactly of the member
tables' contributions in configuration order; and per table: an empty
predicted table with non-empty filtered truth contributes an explicit 0.0
(which is also its recorded table score), a table empty on both sides
contributes nothing, and a non-empty predicted table contributes its
recorded overall table score. -/
theorem C7_section_aggregation (predicted ground_truth : List (String × DF))
    (sec : String) (hs : sec ∈ SECTION_WEIGHTS.map Prod.fst) :
    ((final_section_scores predicted (filterGT predicted ground_truth)).lookup sec
      = some (if (sectionScoreList predicted (filterGT predicted ground_truth) sec).isEmpty then 0
              else meanQ (sectionScoreList predicted (filterGT predicted ground_truth) sec)))
    ∧ (sectionScoreList predicted (filterGT predicted ground_truth) sec
        = (sectionTables sec).filterMap
            (fun t => (tableEntry predicted (filterGT predicted ground_truth) t).2))
    ∧ (∀ t : String,
        ((lookupDF predicted t).rows = [] →
          (lookupDF (filterGT predicted ground_truth) t).rows ≠ [] →
          (tableEntry predicted (filterGT predicted ground_truth) t).2 = some 0
            ∧ (tableEntry predicted (filterGT predicted ground_truth) t).1 = 0)
        ∧ ((lookupDF predicted t).rows = [] →
            (lookupDF (filterGT predicted ground_truth) t).rows = [] →
            (tableEntry predicted (filterGT predicted ground_truth) t).2 = none)
        ∧ ((lookupDF predicted t).rows ≠ [] →
            (tableEntry predicted (filterGT predicted ground_truth) t).2
              = some ((tableEntry predicted (filterGT predicted ground_truth) t).1))) := by
  refine ⟨lookup_final_section_scores _ _ _ hs, rfl, ?_⟩
  intro t
  refine ⟨?_, ?_, ?_⟩
  · intro h1 h2
    constructor <;> simp [tableEntry, h1, h2]
  · intro h1 h2
    simp [tableEntry, h1, h2]
  · intro h1
    simp [tableEntry, h1]

/-- Claim C7, witness: the aggregation facts instantiated at empty predicted
and ground-truth table maps and the `relatives` section. -/
theorem C7_witness :
    ((final_section_scores [] (filterGT [] [])).lookup "relatives"
      = some (if (sectionScoreList [] (filterGT [] []) "relatives").isEmpty then 0
              else meanQ (sectionScoreList [] (filterGT [] []) "relatives")))
    ∧ (sectionScoreList [] (filterGT [] []) "relatives"
        = (sectionTables "relatives").filterMap
            (fun t => (tableEntry [] (filterGT [] []) t).2))
    ∧ (∀ t : String,
        ((lookupDF [] t).rows = [] →
          (lookupDF (filterGT [] []) t).rows ≠ [] →
          (tableEntry [] (filterGT [] []) t).2 = some 0
            ∧ (tableEntry [] (filterGT [] []) t).1 = 0)
        ∧ ((lookupDF [] t).rows = [] →
            (lookupDF (filterGT [] []) t).rows = [] →
            (tableEntry [] (filterGT [] []) t).2 = none)
        ∧ ((lookupDF [] t).rows ≠ [] →
            (tableEntry [] (filterGT [] []) t).2
              = some ((tableEntry [] (filterGT [] []) t).1))) :=
  C7_section_aggregation [] [] "relatives" (by simp [SECTION_WEIGHTS])

/-- Claim C10: a declared section all of whose member tables are empty on
both the predicted and the filtered ground-truth side has an empty score
list, is assigned the section score 0.0, and consequently contributes
nothing to the weighted overall DQS: the overall DQS equals the weighted sum
over the remaining sections only. -/
theorem C10_empty_section_zero (predicted ground_truth : List (String × DF))
    (sec : String) (hs : sec ∈ SECTION_WEIGHTS.map Prod.fst)
    (hall : ∀ t ∈ sectionTables sec,
      (lookupDF predicted t).rows = []
        ∧ (lookupDF (filterGT predicted ground_truth) t).rows = []) :
    (final_section_scores predicted (filterGT predicted ground_truth)).lookup sec = some 0
    ∧ (calculate_overall_dqs predicted ground_truth).overall_dqs
        = ((SECTION_WEIGHTS.filter (fun p => p.1 ≠ sec)).map
            (fun p =>
              (((final_section_scores predicted (filterGT predicted ground_truth)).lookup p.1).getD 0)
                * p.2)).sum := by
  have hempty : sectionScoreList predicted (filterGT predicted ground_truth) sec = [] := by
    rw [sectionScoreList, List.filterMap_eq_nil_iff]
    intro t ht
    obtain ⟨h1, h2⟩ := hall t ht
    simp [tableEntry, h1, h2]
  have hlook : (final_section_scores predicted (filterGT predicted ground_truth)).lookup sec
      = some 0 := by
    rw [lookup_final_section_scores _ _ _ hs, hempty]
    simp
  refine ⟨hlook, ?_⟩
  have hov : (calculate_overall_dqs predicted ground_truth).overall_dqs
      = weightedRollup (final_section_scores predicted (filterGT predicted ground_truth)) := rfl
  rw [hov]
  simp only [SECTION_WEIGHTS, List.map_cons, List.map_nil, List.mem_cons,
    List.not_mem_nil, or_false] at hs
  rcases hs with h | h | h | h <;> subst h <;>
    · rw [weightedRollup]
      simp only [SECTION_WEIGHTS, List.map_cons, List.map_nil, List.sum_cons,
        List.sum_nil, List.filter, hlook]
      simp [hlook]

/-- Claim C10, witness: with empty predicted and ground-truth maps every
section's tables are empty on both sides; the `relatives` section is scored
0.0 and drops out of the rollup. -/
theorem C10_witness :
    (final_section_scores [] (filterGT [] [])).lookup "relatives" = some 0
    ∧ (calculate_overall_dqs [] []).overall_dqs
        = ((SECTION_WEIGHTS.filter (fun p => p.1 ≠ "relatives")).map
            (fun p =>
              (((final_section_scores [] (filterGT [] [])).lookup p.1).getD 0) * p.2)).sum :=
  C10_empty_section_zero [] [] "relatives" (by simp [SECTION_WEIGHTS])
    (fun t _ => ⟨rfl, rfl⟩)

/-- Claim C8: every field-scoring function — text, numeric, enum, boolean
and composite-date — returns a score in the closed interval [0, 1] for
every pair (respectively sextuple) of input values; the text and numeric
scores that could fall below 0 are clamped by their `max(0, ...)`. -/
theorem C8_scores_in_unit_interval :
    (∀ p t : PyVal, 0 ≤ calculate_text_score p t ∧ calculate_text_score p t ≤ 1)
    ∧ (∀ p t : PyVal, 0 ≤ calculate_numeric_score p t ∧ calculate_numeric_score p t ≤ 1)
    ∧ (∀ p t : PyVal, 0 ≤ calculate_enum_score p t ∧ calculate_enum_score p t ≤ 1)
    ∧ (∀ p t : PyVal, 0 ≤ calculate_boolean_score p t ∧ calculate_boolean_score p t ≤ 1)
    ∧ (∀ a b c d e f : PyVal,
        0 ≤ calculate_date_score a b c d e f ∧ calculate_date_score a b c d e f ≤ 1) := by
  refine ⟨?_, ?_, ?_, ?_, ?_⟩
  · intro p t
    unfold calculate_text_score
    split
    · norm_num
    split
    · norm_num
    dsimp only
    split
    · norm_num
    split
    · split <;> norm_num
    have hc : (0:ℚ) ≤ (lev (noneToEmpty (pyStrip (pyStr p))).data
          (noneToEmpty (pyStrip (pyStr t))).data : ℚ)
        / ((max (noneToEmpty (pyStrip (pyStr t))).data.length 1 : ℕ) : ℚ) :=
      div_nonneg (Nat.cast_nonneg _) (Nat.cast_nonneg _)
    exact ⟨le_max_left 0 _, max_le (by norm_num) (by linarith)⟩
  · intro p t
    unfold calculate_numeric_score
    split
    · norm_num
    split
    · norm_num
    rcases hp : pyFloatOf p with _ | pv
    · dsimp only; norm_num
    rcases ht : pyFloatOf t with _ | tv
    · dsimp only; norm_num
    dsimp only
    split
    · split <;> norm_num
    have hc : (0:ℚ) ≤ |pv - tv| / |tv| := div_nonneg (abs_nonneg _) (abs_nonneg _)
    exact ⟨le_max_left 0 _, max_le (by norm_num) (by linarith)⟩
  · intro p t
    unfold calculate_enum_score
    split
    · norm_num
    split
    · norm_num
    dsimp only
    split
    · norm_num
    split <;> norm_num
  · intro p t
    unfold calculate_boolean_score
    split <;> try norm_num
    split <;> norm_num
  · intro a b c d e f
    unfold calculate_date_score
    split_ifs <;> try norm_num
    all_goals split_ifs <;> try norm_num
    all_goals split <;> try norm_num
    all_goals split_ifs <;> norm_num

/-- Claim C9: boolean coercion maps null to null, passes booleans through,
sends the trimmed lower-cased strings "true"/"1"/"yes" to true, sends
"false"/"0"/"no" to false, and anything outside that vocabulary to null
(unparseable is null, not false); both sides null scores 1.0, exactly one
side null scores exactly 0.5 (never 0.0 or 1.0), and two coerced booleans
score 1.0 precisely on equality and 0.0 otherwise. -/
theorem C9_boolean_coercion :
    (to_bool PyVal.vnone = none)
    ∧ (∀ b : Bool, to_bool (PyVal.vbool b) = some b)
    ∧ (∀ s : String,
        (pyLower (pyStrip s) = "true" ∨ pyLower (pyStrip s) = "1"
          ∨ pyLower (pyStrip s) = "yes") → to_bool (PyVal.vstr s) = some true)
    ∧ (∀ s : String,
        (pyLower (pyStrip s) = "false" ∨ pyLower (pyStrip s) = "0"
          ∨ pyLower (pyStrip s) = "no") → to_bool (PyVal.vstr s) = some false)
    ∧ (∀ s : String,
        pyLower (pyStrip s) ∉ (["true", "1", "yes", "false", "0", "no"] : List String) →
        to_bool (PyVal.vstr s) = none)
    ∧ (∀ p t : PyVal, to_bool p = none → to_bool t = none →
        calculate_boolean_score p t = 1)
    ∧ (∀ p t : PyVal,
        (to_bool p = none ∧ to_bool t ≠ none) ∨ (to_bool p ≠ none ∧ to_bool t = none) →
        calculate_boolean_score p t = 1/2
          ∧ calculate_boolean_score p t ≠ 0 ∧ calculate_boolean_score p t ≠ 1)
    ∧ (∀ p t : PyVal, ∀ bp bt : Bool, to_bool p = some bp → to_bool t = some bt →
        calculate_boolean_score p t = if bp = bt then 1 else 0) := by
  refine ⟨rfl, fun b => rfl, ?_, ?_, ?_, ?_, ?_, ?_⟩
  · intro s hs
    rcases hs with h | h | h <;> simp [to_bool, pyIsNA, pyStr, h]
  · intro s hs
    rcases hs with h | h | h <;> simp [to_bool, pyIsNA, pyStr, h]
  · intro s hs
    simp only [List.mem_cons, List.not_mem_nil, or_false, not_or] at hs
    obtain ⟨h1, h2, h3, h4, h5, h6⟩ := hs
    simp [to_bool, pyIsNA, pyStr, h1, h2, h3, h4, h5, h6]
  · intro p t hp ht
    simp [calculate_boolean_score, hp, ht]
  · intro p t h
    rcases h with ⟨hp, ht⟩ | ⟨hp, ht⟩
    · rcases h2 : to_bool t with _ | b
      · exact absurd h2 ht
      · have hv : calculate_boolean_score p t = 1/2 := by
          simp [calculate_boolean_score, hp, h2]
        exact ⟨hv, by rw [hv]; norm_num, by rw [hv]; norm_num⟩
    · rcases h2 : to_bool p with _ | b
      · exact absurd h2 hp
      · have hv : calculate_boolean_score p t = 1/2 := by
          simp [calculate_boolean_score, ht, h2]
        exact ⟨hv, by rw [hv]; norm_num, by rw [hv]; norm_num⟩
  · intro p t bp bt hp ht
    simp [calculate_boolean_score, hp, ht]

/-- Claim C9, witness: "banana" is outside the vocabulary, "yes" coerces to
true, and the pair scores exactly 0.5. -/
theorem C9_witness :
    calculate_boolean_score (PyVal.vstr "banana") (PyVal.vstr "yes") = 1/2
    ∧ calculate_boolean_score (PyVal.vstr "banana") (PyVal.vstr "yes") ≠ 0
    ∧ calculate_boolean_score (PyVal.vstr "banana") (PyVal.vstr "yes") ≠ 1 :=
  C9_boolean_coercion.2.2.2.2.2.2.1 (PyVal.vstr "banana") (PyVal.vstr "yes")
    (Or.inl ⟨by decide, by decide⟩)
